import Mathlib

/-
Verification of the Octopus Deploy MCP server's orchestration layer.

The Python source is shallowly embedded: JSON values are an inductive type,
Python dict/list/str operations become total Lean functions in an exception
monad `Py` (Python exceptions such as AttributeError/KeyError/TypeError are
`Except.error`), and each tool function from the source is translated
statement by statement.  The HTTP layer is a parameter: `_make_request` is
modelled once over an abstract HTTP oracle (`HttpWorld`), and the tool
functions are parametrised by a request function `ReqFn` standing for
`self._make_request`, which in the source always returns a JSON value.
-/

namespace Octopus

/-- JSON values as passed around by the Python code.  Objects are
association lists in insertion order (Python dict); lookups take the first
occurrence of a key. -/
inductive Json where
  | null
  | bool (b : Bool)
  | num (n : Int)
  | str (s : String)
  | arr (xs : List Json)
  | obj (kvs : List (String × Json))
deriving Repr

mutual

def Json.decEq : (a b : Json) → Decidable (a = b)
  | .null, .null => isTrue rfl
  | .null, .bool _ => isFalse (fun h => Json.noConfusion h)
  | .null, .num _ => isFalse (fun h => Json.noConfusion h)
  | .null, .str _ => isFalse (fun h => Json.noConfusion h)
  | .null, .arr _ => isFalse (fun h => Json.noConfusion h)
  | .null, .obj _ => isFalse (fun h => Json.noConfusion h)
  | .bool _, .null => isFalse (fun h => Json.noConfusion h)
  | .bool a, .bool b =>
    if h : a = b then isTrue (congrArg Json.bool h)
    else isFalse (fun hh => h (Json.bool.inj hh))
  | .bool _, .num _ => isFalse (fun h => Json.noConfusion h)
  | .bool _, .str _ => isFalse (fun h => Json.noConfusion h)
  | .bool _, .arr _ => isFalse (fun h => Json.noConfusion h)
  | .bool _, .obj _ => isFalse (fun h => Json.noConfusion h)
  | .num _, .null => isFalse (fun h => Json.noConfusion h)
  | .num _, .bool _ => isFalse (fun h => Json.noConfusion h)
  | .num a, .num b =>
    if h : a = b then isTrue (congrArg Json.num h)
    else isFalse (fun hh => h (Json.num.inj hh))
  | .num _, .str _ => isFalse (fun h => Json.noConfusion h)
  | .num _, .arr _ => isFalse (fun h => Json.noConfusion h)
  | .num _, .obj _ => isFalse (fun h => Json.noConfusion h)
  | .str _, .null => isFalse (fun h => Json.noConfusion h)
  | .str _, .bool _ => isFalse (fun h => Json.noConfusion h)
  | .str _, .num _ => isFalse (fun h => Json.noConfusion h)
  | .str a, .str b =>
    if h : a = b then isTrue (congrArg Json.str h)
    else isFalse (fun hh => h (Json.str.inj hh))
  | .str _, .arr _ => isFalse (fun h => Json.noConfusion h)
  | .str _, .obj _ => isFalse (fun h => Json.noConfusion h)
  | .arr _, .null => isFalse (fun h => Json.noConfusion h)
  | .arr _, .bool _ => isFalse (fun h => Json.noConfusion h)
  | .arr _, .num _ => isFalse (fun h => Json.noConfusion h)
  | .arr _, .str _ => isFalse (fun h => Json.noConfusion h)
  | .arr xs, .arr ys =>
    match Json.decEqList xs ys with
    | isTrue h => isTrue (congrArg Json.arr h)
    | isFalse h => isFalse (fun hh => h (Json.arr.inj hh))
  | .arr _, .obj _ => isFalse (fun h => Json.noConfusion h)
  | .obj _, .null => isFalse (fun h => Json.noConfusion h)
  | .obj _, .bool _ => isFalse (fun h => Json.noConfusion h)
  | .obj _, .num _ => isFalse (fun h => Json.noConfusion h)
  | .obj _, .str _ => isFalse (fun h => Json.noConfusion h)
  | .obj _, .arr _ => isFalse (fun h => Json.noConfusion h)
  | .obj xs, .obj ys =>
    match Json.decEqKVs xs ys with
    | isTrue h => isTrue (congrArg Json.obj h)
    | isFalse h => isFalse (fun hh => h (Json.obj.inj hh))

def Json.decEqList : (xs ys : List Json) → Decidable (xs = ys)
  | [], [] => isTrue rfl
  | [], _ :: _ => isFalse (fun h => List.noConfusion h)
  | _ :: _, [] => isFalse (fun h => List.noConfusion h)
  | x :: xs, y :: ys =>
    match Json.decEq x y with
    | isFalse h => isFalse (fun hh => h (List.cons.inj hh).1)
    | isTrue h1 =>
      match Json.decEqList xs ys with
      | isTrue h2 => isTrue (by rw [h1, h2])
      | isFalse h => isFalse (fun hh => h (List.cons.inj hh).2)

def Json.decEqKVs : (xs ys : List (String × Json)) → Decidable (xs = ys)
  | [], [] => isTrue rfl
  | [], _ :: _ => isFalse (fun h => List.noConfusion h)
  | _ :: _, [] => isFalse (fun h => List.noConfusion h)
  | (k1, v1) :: xs, (k2, v2) :: ys =>
    if hk : k1 = k2 then
      match Json.decEq v1 v2 with
      | isFalse h =>
        isFalse (fun hh => h (congrArg Prod.snd (List.cons.inj hh).1))
      | isTrue h1 =>
        match Json.decEqKVs xs ys with
        | isTrue h2 => isTrue (by rw [hk, h1, h2])
        | isFalse h => isFalse (fun hh => h (List.cons.inj hh).2)
    else
      isFalse (fun hh => hk (congrArg Prod.fst (List.cons.inj hh).1))

end

instance : DecidableEq Json := Json.decEq

instance {ε α : Type} [DecidableEq ε] [DecidableEq α] : DecidableEq (Except ε α)
  | .ok a, .ok b =>
    if h : a = b then isTrue (congrArg Except.ok h)
    else isFalse (fun hh => h (Except.ok.inj hh))
  | .ok _, .error _ => isFalse (fun h => Except.noConfusion h)
  | .error _, .ok _ => isFalse (fun h => Except.noConfusion h)
  | .error a, .error b =>
    if h : a = b then isTrue (congrArg Except.error h)
    else isFalse (fun hh => h (Except.error.inj hh))

/-- `s.lower()` (character-wise, as Python does on the ASCII names this
system handles).  Defined over the character list so that it reduces
structurally. -/
def strLower (s : String) : String := String.mk (s.data.map Char.toLower)

/-- `s.upper()`, likewise character-wise over the character list. -/
def strUpper (s : String) : String := String.mk (s.data.map Char.toUpper)

/-- `s.strip()`: drop leading and trailing whitespace. -/
def strStrip (s : String) : String :=
  String.mk (((s.data.dropWhile Char.isWhitespace).reverse.dropWhile Char.isWhitespace).reverse)

namespace Json

/-- Python truthiness (`if x:`) of a JSON-like value. -/
def truthy : Json → Bool
  | .null => false
  | .bool b => b
  | .num n => n != 0
  | .str s => s != ""
  | .arr xs => !xs.isEmpty
  | .obj kvs => !kvs.isEmpty

/-- `isinstance(x, list)`. -/
def isArr : Json → Bool
  | .arr _ => true
  | _ => false

end Json

/-- The error value `{"error": msg}` that `_make_request` and the tools
build. -/
def errJson (msg : String) : Json := Json.obj [("error", Json.str msg)]

/-- Python computations that may raise; the error string names the
exception class (AttributeError, KeyError, TypeError, IndexError). -/
abbrev Py (α : Type) := Except String α

/-- `x.get(k, d)` — defined on dicts only; anything else raises
AttributeError. -/
def pyGetD (j : Json) (k : String) (d : Json) : Py Json :=
  match j with
  | .obj kvs => .ok ((kvs.lookup k).getD d)
  | _ => .error "AttributeError"

/-- `x[k]` with a string key: KeyError on a dict without the key,
TypeError on non-dicts. -/
def pySub (j : Json) (k : String) : Py Json :=
  match j with
  | .obj kvs =>
    match kvs.lookup k with
    | some v => .ok v
    | none => .error "KeyError"
  | _ => .error "TypeError"

/-- Is `n` an infix of `h` (character lists)? -/
def charsInfix (n : List Char) : List Char → Bool
  | [] => n.isEmpty
  | c :: cs => n.isPrefixOf (c :: cs) || charsInfix n cs

/-- `k in j`: key membership for dicts, element membership for lists,
substring test for strings; TypeError otherwise. -/
def pyMem (k : String) (j : Json) : Py Bool :=
  match j with
  | .obj kvs => .ok (kvs.lookup k).isSome
  | .arr xs => .ok (xs.contains (Json.str k))
  | .str s => .ok (charsInfix k.data s.data)
  | _ => .error "TypeError"

/-- `str(x)`, as used by f-string interpolation. -/
def pyStr : Json → String
  | .null => "None"
  | .bool true => "True"
  | .bool false => "False"
  | .num n => toString n
  | .str s => s
  | .arr _ => "[...]"
  | .obj _ => "[dict]"

/-- Iterating a JSON value (`for x in j` / generator input): lists yield
elements, strings yield one-character strings, dicts yield keys;
TypeError otherwise. -/
def pyIter (j : Json) : Py (List Json) :=
  match j with
  | .arr xs => .ok xs
  | .str s => .ok (s.data.map fun c => Json.str (String.mk [c]))
  | .obj kvs => .ok (kvs.map fun kv => Json.str kv.1)
  | _ => .error "TypeError"

/-- `j[0]`. -/
def pyIndexZero (j : Json) : Py Json :=
  match j with
  | .arr (x :: _) => .ok x
  | .arr [] => .error "IndexError"
  | .str s =>
    match s.data with
    | c :: _ => .ok (Json.str (String.mk [c]))
    | [] => .error "IndexError"
  | .obj _ => .error "KeyError"
  | _ => .error "TypeError"

/-- `x.lower()` — strings only. -/
def pyLower (j : Json) : Py String :=
  match j with
  | .str s => .ok (strLower s)
  | _ => .error "AttributeError"

/-- First element of `elems` satisfying the (effectful, lazily evaluated)
predicate — Python's `next((x for x in elems if p x), None)`. -/
def firstWhere (p : Json → Py Bool) : List Json → Py (Option Json)
  | [] => .ok none
  | x :: xs => do
    if (← p x) then pure (some x) else firstWhere p xs

/-- Truthiness of an `Optional` Python value (`if version:` on an
`Optional[str]`). -/
def optStrTruthy : Option String → Bool
  | none => false
  | some s => s != ""

/-- `str(x)` for an `Optional[str]` (f-string interpolation of a possibly
`None` variable). -/
def pyStrOpt : Option String → String
  | none => "None"
  | some s => s

/-- `x if x else None` style guard: a looked-up entity passes the
`if not x:` check only when present and truthy. -/
def truthyOpt : Option Json → Option Json
  | none => none
  | some j => if j.truthy then some j else none

/-- `endpoint.lstrip('/')`. -/
def lstripSlash (s : String) : String := String.mk (s.data.dropWhile (fun c => c = '/'))

/-- The outcome of one HTTP exchange, as observed by `_make_request`'s
`try` block: a reply carrying a status code, the result of decoding the
body as JSON (decoding may itself raise), and the raw text; or an
`httpx.RequestError`; or any other exception raised during the call. -/
inductive HttpOutcome where
  | reply (status : Nat) (body : Py Json) (text : String)
  | requestError (msg : String)
  | otherExn (msg : String)

/-- The network oracle: maps (url, verb, posted body) to an outcome.
The verb is "POST" or "GET" exactly as dispatched by `_make_request`;
a GET carries `Json.null` as its body. -/
abbrev HttpWorld := String → String → Json → HttpOutcome

/-- The configuration held by `BaseOctopusTools.__init__`:
`base_url = server.config.get("base_url", "").rstrip('/')` (a string) and
`api_key = server.config.get("api_key")` (an arbitrary JSON value,
`null` when absent). -/
structure Tools where
  base_url : String
  api_key : Json

/-- `BaseOctopusTools._make_request`.  Returns the JSON value the Python
function returns, paired with whether any network request was attempted.
The function is total: every failure path of the source is a returned
`errJson`, never a raised exception. -/
def makeRequest (t : Tools) (w : HttpWorld) (endpoint method : String)
    (data : Json) : Json × Bool :=
  if t.base_url = "" ∨ t.api_key.truthy = false then
    (errJson "Missing Octopus Deploy credentials. Please configure OCTOPUS_URL and OCTOPUS_API_KEY environment variables.", false)
  else
    let url := t.base_url ++ "/" ++ lstripSlash endpoint
    let verb := if strUpper method = "POST" then "POST" else "GET"
    let sent := if verb = "POST" then data else Json.null
    match w url verb sent with
    | .reply status body text =>
      if status = 200 ∨ status = 201 then
        match body with
        | .ok j => (j, true)
        | .error m => (errJson ("Unexpected error: " ++ m), true)
      else if status = 401 then
        (errJson "Authentication failed. Please check your API key.", true)
      else if status = 404 then
        (errJson "Resource not found.", true)
      else
        (errJson ("API request failed with status " ++ toString status ++ ": " ++ text), true)
    | .requestError m =>
      (errJson ("Failed to connect to Octopus Deploy API: " ++ m), true)
    | .otherExn m =>
      (errJson ("Unexpected error: " ++ m), true)

/-- `self._make_request` as seen by the tool functions: (endpoint, method,
data) to the returned JSON value.  (`_make_request` always returns a JSON
value, so the tools are parametrised by this abstraction.) -/
abbrev ReqFn := String → String → Json → Json

/-- The `ReqFn` induced by a configuration and a network oracle. -/
def reqOf (t : Tools) (w : HttpWorld) : ReqFn :=
  fun endpoint method data => (makeRequest t w endpoint method data).1

/-- The recurring idiom
`resources if isinstance(resources, list) else resources.get("Items", [])`. -/
def itemsOrSelf (resources : Json) : Py Json :=
  if resources.isArr then .ok resources
  else pyGetD resources "Items" (Json.arr [])

/-- `BaseOctopusTools._get_by_name`: fetch a collection endpoint and return
the first entry whose `Name` equals `name` case-insensitively. -/
def getByName (req : ReqFn) (uri name : String) : Py (Option Json) := do
  let resources := req uri "GET" Json.null
  if (← pyMem "error" resources) then
    return none
  let items ← itemsOrSelf resources
  let elems ← pyIter items
  firstWhere (fun x => do
    let n ← pyGetD x "Name" (Json.str "")
    let ln ← pyLower n
    pure (ln = strLower name)) elems

/-- `BaseOctopusTools._get_space` (the `space_name` parameter defaults to
"Default" in the source; see `getSpaceNoArg`).  The success branch logs an
f-string that subscripts `space['Id']`, which is evaluated eagerly. -/
def getSpace (req : ReqFn) (spaceName : String) : Py (Option Json) := do
  let space ← getByName req "spaces/all" spaceName
  match space with
  | some s =>
    if s.truthy then do
      let _ ← pySub s "Id"
      pure (some s)
    else
      pure none
  | none => pure none

/-- `self._get_space()` with the `space_name` argument omitted: the Python
default parameter value "Default" is used. -/
def getSpaceNoArg (req : ReqFn) : Py (Option Json) := getSpace req "Default"

/-- `BaseOctopusTools._get_project_releases` (both arguments are JSON
values taken from `space["Id"]` / `project["Id"]` and interpolated into
the f-string URL). -/
def getProjectReleases (req : ReqFn) (spaceId projectId : Json) : Json :=
  req (pyStr spaceId ++ "/projects/" ++ pyStr projectId ++ "/releases") "GET" Json.null

/-- `BaseOctopusTools._find_release`.  `releases` is whatever JSON value
the caller passed (`releases_response.get("Items", [])`), `version` is the
`Optional[str]` argument; `if version:` is Python truthiness, so an empty
string selects the latest-release branch. -/
def findRelease (releases : Json) (version : Option String) : Py (Option Json) := do
  if releases.truthy = false then
    return none
  if optStrTruthy version then
    let elems ← pyIter releases
    firstWhere (fun x => do
      let xv ← pyGetD x "Version" Json.null
      pure (xv = Json.str (version.getD ""))) elems
  else do
    let first ← pyIndexZero releases
    pure (some first)

/-- The env-id collection loop of `_get_active_environments`
(lines 130-134): gather `deployment.get("EnvironmentId")` for each
deployment, keeping only truthy ids.  (The source collects into a `set`;
only membership is consumed downstream, so a list with possible
duplicates is an equivalent model.) -/
def collectEnvIds : List Json → Py (List Json)
  | [] => .ok []
  | d :: ds => do
    let eid ← pyGetD d "EnvironmentId" Json.null
    let rest ← collectEnvIds ds
    pure (if eid.truthy then eid :: rest else rest)

/-- The filter loop of `_get_active_environments` (lines 147-154): keep
environments whose `Id` is among the collected deployment environment
ids, projected to objects with id and name. -/
def filterActive (envIds : List Json) : List Json → Py (List Json)
  | [] => .ok []
  | e :: es => do
    let eid ← pyGetD e "Id" Json.null
    if envIds.contains eid then do
      let nm ← pyGetD e "Name" Json.null
      let rest ← filterActive envIds es
      pure (Json.obj [("id", eid), ("name", nm)] :: rest)
    else
      filterActive envIds es

/-- `BaseOctopusTools._get_active_environments`.  Every logging f-string
of the source that subscripts or calls `.get` on a value is modelled by
the corresponding eager evaluation. -/
def getActiveEnvironments (req : ReqFn) (spaceId projectId : Json) : Py (List Json) := do
  let releasesResponse := req (pyStr spaceId ++ "/projects/" ++ pyStr projectId ++ "/releases") "GET" Json.null
  if (← pyMem "error" releasesResponse) then do
    let _ ← pyGetD releasesResponse "error" (Json.str "Unknown error")
    return []
  let releases ← pyGetD releasesResponse "Items" (Json.arr [])
  if releases.truthy = false then
    return []
  let latest ← pyIndexZero releases
  let lid ← pySub latest "Id"
  let deploymentsResponse := req (pyStr spaceId ++ "/releases/" ++ pyStr lid ++ "/deployments") "GET" Json.null
  if (← pyMem "error" deploymentsResponse) then do
    let _ ← pyGetD deploymentsResponse "error" (Json.str "Unknown error")
    return []
  let deployments ← pyGetD deploymentsResponse "Items" (Json.arr [])
  if deployments.truthy = false then do
    let _ ← pyGetD latest "Version" Json.null
    return []
  let delems ← pyIter deployments
  let envIds ← collectEnvIds delems
  let environmentsResponse := req (pyStr spaceId ++ "/environments/all") "GET" Json.null
  if (← pyMem "error" environmentsResponse) then do
    let _ ← pyGetD environmentsResponse "error" (Json.str "Unknown error")
    return []
  let allEnvironments ← itemsOrSelf environmentsResponse
  let eelems ← pyIter allEnvironments
  filterActive envIds eelems

/-- `len(x)`. -/
def pyLen (j : Json) : Py Nat :=
  match j with
  | .arr xs => .ok xs.length
  | .str s => .ok s.length
  | .obj kvs => .ok kvs.length
  | _ => .error "TypeError"

/-- Python `d[k] = v` on a dict: replace the value in place if the key
exists (order preserved), append at the end otherwise. -/
def setKey (kvs : List (String × Json)) (k : String) (v : Json) : List (String × Json) :=
  if kvs.any (fun kv => kv.1 = k) then
    kvs.map (fun kv => if kv.1 = k then (k, v) else kv)
  else
    kvs ++ [(k, v)]

/-- Python `d.update(other)`: assign each key of `other` in order. -/
def updateKeys (kvs : List (String × Json)) : List (String × Json) → List (String × Json)
  | [] => kvs
  | (k, v) :: rest => updateKeys (setKey kvs k v) rest

/-- The sentinel substituted for an empty active-environment list by
`get_project_details`. -/
def sentinelNoActiveEnv : String :=
  "There is no active environment with a release for this project"

/-- `get_project_details` (project_tools.py).  Logging f-strings that
subscript `space['Id']` / `project['Id']` are subsumed by the eager
`pySub` evaluations of those same subscripts. -/
def getProjectDetails (req : ReqFn) (projectName spaceName : String) : Py Json := do
  if projectName = "" then
    return errJson "project_name is required"
  match (← getSpace req spaceName) with
  | none => pure (errJson ("Space '" ++ spaceName ++ "' not found"))
  | some space => do
    let sid ← pySub space "Id"
    match truthyOpt (← getByName req (pyStr sid ++ "/projects/all") projectName) with
    | none =>
      pure (errJson ("Project '" ++ projectName ++ "' not found in space '" ++ spaceName ++ "'"))
    | some project => do
      let pid ← pySub project "Id"
      let environments ← getActiveEnvironments req sid pid
      let activeEnvs :=
        if environments.isEmpty then Json.str sentinelNoActiveEnv
        else Json.arr environments
      let spId ← pyGetD space "Id" Json.null
      let spNm ← pyGetD space "Name" Json.null
      let prId ← pyGetD project "Id" Json.null
      let prNm ← pyGetD project "Name" Json.null
      let prDesc ← pyGetD project "Description" (Json.str "")
      let prGrp ← pyGetD project "ProjectGroupId" Json.null
      let prLc ← pyGetD project "LifecycleId" Json.null
      let prDp ← pyGetD project "DeploymentProcessId" Json.null
      let prVs ← pyGetD project "VariableSetId" Json.null
      pure (Json.obj [("success", Json.bool true),
        ("space", Json.obj [("id", spId), ("name", spNm)]),
        ("project", Json.obj [("id", prId), ("name", prNm), ("description", prDesc),
          ("project_group_id", prGrp), ("lifecycle_id", prLc),
          ("deployment_process_id", prDp), ("variable_set_id", prVs)]),
        ("active_environments", activeEnvs)])

/-- `get_latest_release` (release_tools.py). -/
def getLatestRelease (req : ReqFn) (projectName spaceName : String) : Py Json := do
  if projectName = "" then
    return errJson "project_name is required"
  match (← getSpace req spaceName) with
  | none => pure (errJson ("Space '" ++ spaceName ++ "' not found"))
  | some space => do
    let sid ← pySub space "Id"
    match truthyOpt (← getByName req (pyStr sid ++ "/projects/all") projectName) with
    | none =>
      pure (errJson ("Project '" ++ projectName ++ "' not found in " ++ spaceName ++ " space"))
    | some project => do
      let pid ← pySub project "Id"
      let releasesResponse := getProjectReleases req sid pid
      if (← pyMem "error" releasesResponse) then
        return releasesResponse
      let releases ← pyGetD releasesResponse "Items" (Json.arr [])
      if releases.truthy = false then
        return errJson ("No releases found for project '" ++ projectName ++ "'")
      let latest ← pyIndexZero releases
      let spId ← pyGetD space "Id" Json.null
      let spNm ← pyGetD space "Name" Json.null
      let prId ← pyGetD project "Id" Json.null
      let prNm ← pyGetD project "Name" Json.null
      let lrId ← pyGetD latest "Id" Json.null
      let lrVer ← pyGetD latest "Version" Json.null
      let lrNotes ← pyGetD latest "ReleaseNotes" (Json.str "")
      let lrAsm ← pyGetD latest "Assembled" Json.null
      let lrCh ← pyGetD latest "ChannelId" Json.null
      let lrPr ← pyGetD latest "ProjectId" Json.null
      let lrSel ← pyGetD latest "SelectedPackages" (Json.arr [])
      pure (Json.obj [("success", Json.bool true),
        ("space", Json.obj [("id", spId), ("name", spNm)]),
        ("project", Json.obj [("id", prId), ("name", prNm)]),
        ("latest_release", Json.obj [("id", lrId), ("version", lrVer),
          ("release_notes", lrNotes), ("assembled", lrAsm),
          ("channel_id", lrCh), ("project_id", lrPr),
          ("selected_packages", lrSel)])])

/-- The package-resolution loop of `create_release` (release_tools.py,
lines 104-118).  `inl` is the early `return self._json_response(...)` the
source takes when a feed query returns an error value; `inr` is the
accumulated `selected_packages` list. -/
def buildSelectedPackages (req : ReqFn) (spaceId : Json) :
    List Json → Py (Json ⊕ List Json)
  | [] => .ok (.inr [])
  | pkg :: rest => do
    let feedId ← pySub pkg "FeedId"
    let pkgId ← pySub pkg "PackageId"
    let packageResponse := req (pyStr spaceId ++ "/feeds/" ++ pyStr feedId ++
      "/packages/versions?packageId=" ++ pyStr pkgId ++ "&take=1") "GET" Json.null
    if (← pyMem "error" packageResponse) then
      return .inl packageResponse
    let packages ← itemsOrSelf packageResponse
    if packages.truthy then do
      let selected ← pyIndexZero packages
      let an ← pySub pkg "ActionName"
      let prn ← pySub pkg "PackageReferenceName"
      let ver ← pySub selected "Version"
      match (← buildSelectedPackages req spaceId rest) with
      | .inl e => pure (.inl e)
      | .inr sels =>
        pure (.inr (Json.obj [("ActionName", an), ("PackageReferenceName", prn),
          ("Version", ver)] :: sels))
    else
      buildSelectedPackages req spaceId rest

/-- The tail of `create_release` after the package loop (lines 120-158):
POST the release and shape the result payload. -/
def finishCreateRelease (req : ReqFn) (space project channel spaceId projectId : Json)
    (projectName version : String) (selectedPackages : List Json) : Py Json := do
  let chId ← pySub channel "Id"
  let releaseData := Json.obj [("ChannelId", chId), ("ProjectId", projectId),
    ("Version", Json.str version), ("SelectedPackages", Json.arr selectedPackages)]
  let releaseResponse := req (pyStr spaceId ++ "/releases") "POST" releaseData
  if (← pyMem "error" releaseResponse) then
    return releaseResponse
  let spId ← pyGetD space "Id" Json.null
  let spNm ← pyGetD space "Name" Json.null
  let prId ← pyGetD project "Id" Json.null
  let prNm ← pyGetD project "Name" Json.null
  let chId2 ← pyGetD channel "Id" Json.null
  let chNm ← pyGetD channel "Name" Json.null
  let rId ← pyGetD releaseResponse "Id" Json.null
  let rVer ← pyGetD releaseResponse "Version" Json.null
  let rAsm ← pyGetD releaseResponse "Assembled" Json.null
  let rCh ← pyGetD releaseResponse "ChannelId" Json.null
  let rPr ← pyGetD releaseResponse "ProjectId" Json.null
  let rSel ← pyGetD releaseResponse "SelectedPackages" (Json.arr [])
  pure (Json.obj [("success", Json.bool true),
    ("message", Json.str ("Release '" ++ version ++ "' created successfully for project '" ++ projectName ++ "'")),
    ("space", Json.obj [("id", spId), ("name", spNm)]),
    ("project", Json.obj [("id", prId), ("name", prNm)]),
    ("channel", Json.obj [("id", chId2), ("name", chNm)]),
    ("release", Json.obj [("id", rId), ("version", rVer), ("assembled", rAsm),
      ("channel_id", rCh), ("project_id", rPr), ("selected_packages", rSel)])])

/-- `create_release` (release_tools.py). -/
def createRelease (req : ReqFn) (projectName version channelName spaceName : String) : Py Json := do
  if projectName = "" ∨ version = "" then
    return errJson "project_name and version are required"
  match (← getSpace req spaceName) with
  | none => pure (errJson ("Space '" ++ spaceName ++ "' not found"))
  | some space => do
    let sid ← pySub space "Id"
    match truthyOpt (← getByName req (pyStr sid ++ "/projects/all") projectName) with
    | none =>
      pure (errJson ("Project '" ++ projectName ++ "' not found in " ++ spaceName ++ " space"))
    | some project => do
      let projectId ← pySub project "Id"
      match truthyOpt (← getByName req (pyStr sid ++ "/projects/" ++ pyStr projectId ++ "/channels") channelName) with
      | none =>
        pure (errJson ("Channel '" ++ channelName ++ "' not found for project '" ++ projectName ++ "'"))
      | some channel => do
        let chId ← pySub channel "Id"
        let templateResponse := req (pyStr sid ++ "/deploymentprocesses/deploymentprocess-" ++
          pyStr projectId ++ "/template?channel=" ++ pyStr chId) "GET" Json.null
        if (← pyMem "error" templateResponse) then
          return templateResponse
        let packages ← pyGetD templateResponse "Packages" (Json.arr [])
        let pelems ← pyIter packages
        match (← buildSelectedPackages req sid pelems) with
        | .inl e => pure e
        | .inr sels =>
          finishCreateRelease req space project channel sid projectId projectName version sels

/-- The fixed advisory message of `deploy_release`. -/
def deployAdvisoryMsg : String :=
  "Deployment has been initiated successfully. This does not guarantee the deployment completed successfully."

/-- The next-step pointer of `deploy_release`. -/
def deployNextStepMsg : String :=
  "Use the check_deployment_status tool to monitor the actual deployment progress and final status."

/-- The result literal of `deploy_release` (deployment_tools.py,
lines 86-101), built from the resolved entities and whatever value the
deployment-creation POST returned. -/
def deployPayload (space project release environment deploymentResponse : Json) : Py Json := do
  let spId ← pyGetD space "Id" Json.null
  let spNm ← pyGetD space "Name" Json.null
  let prId ← pyGetD project "Id" Json.null
  let prNm ← pyGetD project "Name" Json.null
  let rId ← pyGetD release "Id" Json.null
  let rVer ← pyGetD release "Version" Json.null
  let eId ← pyGetD environment "Id" Json.null
  let eNm ← pyGetD environment "Name" Json.null
  let dId ← pyGetD deploymentResponse "Id" Json.null
  let dNm ← pyGetD deploymentResponse "Name" Json.null
  let dSt ← pyGetD deploymentResponse "State" Json.null
  let dCr ← pyGetD deploymentResponse "Created" Json.null
  let dTk ← pyGetD deploymentResponse "TaskId" Json.null
  pure (Json.obj [("success", Json.bool true),
    ("message", Json.str deployAdvisoryMsg),
    ("next_step", Json.str deployNextStepMsg),
    ("space", Json.obj [("id", spId), ("name", spNm)]),
    ("project", Json.obj [("id", prId), ("name", prNm)]),
    ("release", Json.obj [("id", rId), ("version", rVer)]),
    ("environment", Json.obj [("id", eId), ("name", eNm)]),
    ("deployment", Json.obj [("id", dId), ("name", dNm), ("state", dSt),
      ("created", dCr), ("task_id", dTk)])])

/-- `deploy_release` (deployment_tools.py).  `release_version` has Python
default `None`, modelled as `Option String`. -/
def deployRelease (req : ReqFn) (projectName environmentName : String)
    (releaseVersion : Option String) (spaceName : String) : Py Json := do
  if projectName = "" ∨ environmentName = "" then
    return errJson "project_name and environment_name are required"
  match (← getSpace req spaceName) with
  | none => pure (errJson ("Space '" ++ spaceName ++ "' not found"))
  | some space => do
    let spaceId ← pySub space "Id"
    match truthyOpt (← getByName req (pyStr spaceId ++ "/projects/all") projectName) with
    | none =>
      pure (errJson ("Project '" ++ projectName ++ "' not found in " ++ spaceName ++ " space"))
    | some project => do
      let pid ← pySub project "Id"
      let releasesResponse := getProjectReleases req spaceId pid
      if (← pyMem "error" releasesResponse) then
        return releasesResponse
      let releases ← pyGetD releasesResponse "Items" (Json.arr [])
      if releases.truthy = false then
        return errJson ("No releases found for project '" ++ projectName ++ "'")
      let _ ← pyLen releases
      match truthyOpt (← findRelease releases releaseVersion) with
      | none =>
        pure (errJson ("Release version '" ++ pyStrOpt releaseVersion ++ "' not found for project '" ++ projectName ++ "'"))
      | some release => do
        let _ ← pyGetD release "Version" Json.null
        let _ ← pyGetD release "Id" Json.null
        match truthyOpt (← getByName req (pyStr spaceId ++ "/environments/all") environmentName) with
        | none =>
          pure (errJson ("Environment '" ++ environmentName ++ "' not found in " ++ spaceName ++ " space"))
        | some environment => do
          let _ ← pyGetD environment "Name" Json.null
          let _ ← pyGetD environment "Id" Json.null
          let rId ← pyGetD release "Id" Json.null
          let eId ← pyGetD environment "Id" Json.null
          let deploymentData := Json.obj [("ReleaseId", rId), ("EnvironmentId", eId)]
          let deploymentResponse := req (pyStr spaceId ++ "/deployments") "POST" deploymentData
          if (← pyMem "error" deploymentResponse) then do
            let _ ← pyGetD deploymentResponse "error" Json.null
            pure ()
          deployPayload space project release environment deploymentResponse

/-- `DeploymentTools._get_environments_to_check`. -/
def getEnvironmentsToCheck (req : ReqFn) (spaceId : Json)
    (environmentName : Option String) : Py Json := do
  if optStrTruthy environmentName then do
    let environment ← getByName req (pyStr spaceId ++ "/environments/all") (environmentName.getD "")
    match truthyOpt environment with
    | some e => pure (Json.arr [e])
    | none => pure (Json.arr [])
  else do
    let environmentsResponse := req (pyStr spaceId ++ "/environments/all") "GET" Json.null
    if (← pyMem "error" environmentsResponse) then
      return Json.arr []
    itemsOrSelf environmentsResponse

/-- The list comprehension
`[d for d in deployments if d.get("EnvironmentId") == env_id]`. -/
def deploymentsMatching (envId : Json) : List Json → Py (List Json)
  | [] => .ok []
  | d :: ds => do
    let di ← pyGetD d "EnvironmentId" Json.null
    let rest ← deploymentsMatching envId ds
    pure (if di = envId then d :: rest else rest)

/-- `DeploymentTools._get_deployment_status`: shape the per-deployment
status, overlaying task details when a task id is present and the task
fetch does not return an error value. -/
def getDeploymentStatus (req : ReqFn) (deployment : Json) : Py Json := do
  let taskId ← pyGetD deployment "TaskId" Json.null
  let dId ← pyGetD deployment "Id" Json.null
  let created ← pyGetD deployment "Created" Json.null
  let deployedBy ← pyGetD deployment "DeployedBy" Json.null
  let comments ← pyGetD deployment "Comments" (Json.str "")
  let base := [("deployment_id", dId), ("state", Json.null),
    ("completed", Json.bool false), ("started", created),
    ("completed_time", Json.null), ("duration", Json.null),
    ("task_id", taskId), ("deployed_by", deployedBy), ("comments", comments)]
  if taskId.truthy then do
    let taskResponse := req ("tasks/" ++ pyStr taskId) "GET" Json.null
    if (← pyMem "error" taskResponse) = false then do
      let st ← pyGetD taskResponse "State" Json.null
      let comp ← pyGetD taskResponse "IsCompleted" (Json.bool false)
      let stt ← pyGetD taskResponse "StartTime" Json.null
      let ct ← pyGetD taskResponse "CompletedTime" Json.null
      let dur ← pyGetD taskResponse "Duration" Json.null
      let updated := updateKeys base [("state", st), ("completed", comp),
        ("started", stt), ("completed_time", ct), ("duration", dur)]
      let hwe ← pyGetD taskResponse "HasWarningsOrErrors" (Json.bool false)
      if hwe.truthy then do
        let em ← pyGetD taskResponse "ErrorMessage" (Json.str "")
        pure (Json.obj (setKey updated "error_message" em))
      else
        pure (Json.obj updated)
    else
      pure (Json.obj base)
  else
    pure (Json.obj base)

/-- The loop body of `_build_environment_statuses`: one entry per
environment that has at least one matching deployment; environments with
none are skipped. -/
def statusesGo (req : ReqFn) (deployments : Json) : List Json → Py (List Json)
  | [] => .ok []
  | env :: rest => do
    let envId ← pyGetD env "Id" Json.null
    let envName ← pyGetD env "Name" Json.null
    let dl ← pyIter deployments
    let envDeps ← deploymentsMatching envId dl
    match envDeps with
    | [] => statusesGo req deployments rest
    | latest :: _ => do
      let ds ← getDeploymentStatus req latest
      let restS ← statusesGo req deployments rest
      pure (Json.obj [("environment", Json.obj [("id", envId), ("name", envName)]),
        ("deployment_status", ds)] :: restS)

/-- `DeploymentTools._build_environment_statuses`. -/
def buildEnvironmentStatuses (req : ReqFn) (environments deployments : Json) : Py (List Json) := do
  let envs ← pyIter environments
  statusesGo req deployments envs

/-- `check_deployment_status` (deployment_tools.py).  The two optional
string parameters default to the empty string at the tool boundary and
are normalized to `None` when falsy, `.strip()`ed otherwise. -/
def checkDeploymentStatus (req : ReqFn)
    (projectName releaseVersion environmentName spaceName : String) : Py Json := do
  if projectName = "" then
    return errJson "project_name is required"
  let rv : Option String := if releaseVersion = "" then none else some (strStrip releaseVersion)
  let en : Option String := if environmentName = "" then none else some (strStrip environmentName)
  match (← getSpace req spaceName) with
  | none => pure (errJson ("Space '" ++ spaceName ++ "' not found"))
  | some space => do
    let spaceId ← pySub space "Id"
    match truthyOpt (← getByName req (pyStr spaceId ++ "/projects/all") projectName) with
    | none =>
      pure (errJson ("Project '" ++ projectName ++ "' not found in " ++ spaceName ++ " space"))
    | some project => do
      let pid ← pySub project "Id"
      let releasesResponse := getProjectReleases req spaceId pid
      if (← pyMem "error" releasesResponse) then
        return releasesResponse
      let releases ← pyGetD releasesResponse "Items" (Json.arr [])
      if releases.truthy = false then
        return errJson ("No releases found for project '" ++ projectName ++ "'")
      match truthyOpt (← findRelease releases rv) with
      | none =>
        pure (errJson ("Release version '" ++ pyStrOpt rv ++ "' not found for project '" ++ projectName ++ "'"))
      | some release => do
        let environmentsToCheck ← getEnvironmentsToCheck req spaceId en
        if environmentsToCheck.truthy = false then
          return errJson ("Environment '" ++ pyStrOpt en ++ "' not found in " ++ spaceName ++ " space")
        let relId ← pySub release "Id"
        let deploymentsResponse := req (pyStr spaceId ++ "/releases/" ++ pyStr relId ++ "/deployments") "GET" Json.null
        if (← pyMem "error" deploymentsResponse) then
          return deploymentsResponse
        let deployments ← pyGetD deploymentsResponse "Items" (Json.arr [])
        let environmentStatuses ← buildEnvironmentStatuses req environmentsToCheck deployments
        let spId ← pyGetD space "Id" Json.null
        let spNm ← pyGetD space "Name" Json.null
        let prId ← pyGetD project "Id" Json.null
        let prNm ← pyGetD project "Name" Json.null
        let rId ← pyGetD release "Id" Json.null
        let rVer ← pyGetD release "Version" Json.null
        let total ← pyLen environmentsToCheck
        pure (Json.obj [("success", Json.bool true),
          ("space", Json.obj [("id", spId), ("name", spNm)]),
          ("project", Json.obj [("id", prId), ("name", prNm)]),
          ("release", Json.obj [("id", rId), ("version", rVer)]),
          ("deployment_statuses", Json.arr environmentStatuses),
          ("summary", Json.obj [
            ("total_environments_checked", Json.num total),
            ("deployed_count", Json.num environmentStatuses.length),
            ("environments_with_deployments", Json.num environmentStatuses.length)])])

/-! ### Reduction lemmas for the embedded Python primitives -/

@[simp] theorem py_ok_bind {α β : Type} (a : α) (f : α → Py β) :
    (Except.ok a : Py α) >>= f = f a := rfl

@[simp] theorem py_error_bind {α β : Type} (e : String) (f : α → Py β) :
    (Except.error e : Py α) >>= f = Except.error e := rfl

@[simp] theorem py_pure_eq {α : Type} (a : α) : (pure a : Py α) = Except.ok a := rfl

@[simp] theorem pyGetD_obj (kvs : List (String × Json)) (k : String) (d : Json) :
    pyGetD (Json.obj kvs) k d = .ok ((kvs.lookup k).getD d) := rfl

@[simp] theorem pyMem_obj (k : String) (kvs : List (String × Json)) :
    pyMem k (Json.obj kvs) = .ok (kvs.lookup k).isSome := rfl

@[simp] theorem pyMem_arr (k : String) (xs : List Json) :
    pyMem k (Json.arr xs) = .ok (xs.contains (Json.str k)) := rfl

@[simp] theorem pyIter_arr (xs : List Json) : pyIter (Json.arr xs) = .ok xs := rfl

@[simp] theorem pyLower_str (s : String) : pyLower (Json.str s) = .ok (strLower s) := rfl

@[simp] theorem truthy_arr (xs : List Json) : (Json.arr xs).truthy = !xs.isEmpty := rfl

@[simp] theorem itemsOrSelf_arr (xs : List Json) :
    itemsOrSelf (Json.arr xs) = .ok (Json.arr xs) := rfl

@[simp] theorem itemsOrSelf_obj (kvs : List (String × Json)) :
    itemsOrSelf (Json.obj kvs) = .ok ((kvs.lookup "Items").getD (Json.arr [])) := rfl

@[simp] theorem pyLen_arr (xs : List Json) : pyLen (Json.arr xs) = .ok xs.length := rfl

@[simp] theorem pyIndexZero_cons (x : Json) (xs : List Json) :
    pyIndexZero (Json.arr (x :: xs)) = .ok x := rfl

theorem pySub_lookup (kvs : List (String × Json)) (k : String) (v : Json)
    (h : kvs.lookup k = some v) : pySub (Json.obj kvs) k = .ok v := by
  simp [pySub, h]

@[simp] theorem truthyOpt_some (j : Json) :
    truthyOpt (some j) = if j.truthy then some j else none := rfl

@[simp] theorem truthyOpt_none : truthyOpt none = none := rfl

/-! ### C5: the API request primitive -/

/-- **C5** — `_make_request` is a total function of the configuration and
the network outcome (it never raises to its caller): with the base URL or
API key missing it returns the credentials error value and performs no
network exchange; otherwise it performs exactly one exchange and maps the
outcome as specified (decoded JSON for 200/201, tagged error values for
401, 404, other statuses, connection failures, and any other exception,
including a body that fails to decode). -/
theorem makeRequest_spec (t : Tools) (w : HttpWorld) (endpoint method : String)
    (data : Json) :
    ((t.base_url = "" ∨ t.api_key.truthy = false) →
      makeRequest t w endpoint method data =
        (errJson "Missing Octopus Deploy credentials. Please configure OCTOPUS_URL and OCTOPUS_API_KEY environment variables.", false))
    ∧ (t.base_url ≠ "" → t.api_key.truthy = true →
      (makeRequest t w endpoint method data).2 = true
      ∧ ∀ url verb sent,
          url = t.base_url ++ "/" ++ lstripSlash endpoint →
          verb = (if strUpper method = "POST" then "POST" else "GET") →
          sent = (if verb = "POST" then data else Json.null) →
          ((∀ status body text, w url verb sent = .reply status (.ok body) text →
              (status = 200 ∨ status = 201) →
              makeRequest t w endpoint method data = (body, true))
          ∧ (∀ status m text, w url verb sent = .reply status (.error m) text →
              (status = 200 ∨ status = 201) →
              makeRequest t w endpoint method data = (errJson ("Unexpected error: " ++ m), true))
          ∧ (∀ body text, w url verb sent = .reply 401 body text →
              makeRequest t w endpoint method data =
                (errJson "Authentication failed. Please check your API key.", true))
          ∧ (∀ body text, w url verb sent = .reply 404 body text →
              makeRequest t w endpoint method data =
                (errJson "Resource not found.", true))
          ∧ (∀ status body text, w url verb sent = .reply status body text →
              status ≠ 200 → status ≠ 201 → status ≠ 401 → status ≠ 404 →
              makeRequest t w endpoint method data =
                (errJson ("API request failed with status " ++ toString status ++ ": " ++ text), true))
          ∧ (∀ m, w url verb sent = .requestError m →
              makeRequest t w endpoint method data =
                (errJson ("Failed to connect to Octopus Deploy API: " ++ m), true))
          ∧ (∀ m, w url verb sent = .otherExn m →
              makeRequest t w endpoint method data =
                (errJson ("Unexpected error: " ++ m), true)))) := by
  constructor
  · intro h
    simp only [makeRequest, if_pos h]
  · intro h1 h2
    have hcond : ¬ (t.base_url = "" ∨ t.api_key.truthy = false) := by
      simp [h1, h2]
    constructor
    · simp only [makeRequest, if_neg hcond]
      rcases w (t.base_url ++ "/" ++ lstripSlash endpoint)
          (if strUpper method = "POST" then "POST" else "GET")
          (if (if strUpper method = "POST" then "POST" else "GET") = "POST" then data
            else Json.null) with ⟨status, body, text⟩ | m | m
      · dsimp only
        split
        · rcases body with j | m <;> rfl
        · split
          · rfl
          · split <;> rfl
      · rfl
      · rfl
    · intro url verb sent hurl hverb hsent
      subst hurl; subst hverb; subst hsent
      refine ⟨?_, ?_, ?_, ?_, ?_, ?_, ?_⟩
      · intro status body text hw hst
        simp only [makeRequest, if_neg hcond, hw, if_pos hst]
      · intro status m text hw hst
        simp only [makeRequest, if_neg hcond, hw, if_pos hst]
      · intro body text hw
        simp only [makeRequest, if_neg hcond, hw]
        norm_num
      · intro body text hw
        simp only [makeRequest, if_neg hcond, hw]
        norm_num
      · intro status body text hw h200 h201 h401 h404
        simp only [makeRequest, if_neg hcond, hw]
        rw [if_neg (by tauto), if_neg h401, if_neg h404]
      · intro m hw
        simp only [makeRequest, if_neg hcond, hw]
      · intro m hw
        simp only [makeRequest, if_neg hcond, hw]

/-! ### C4: the release selector -/

/-- The `Version` field a release contributes to the exact-match test of
`_find_release` (`x.get('Version')`, i.e. `null` when absent). -/
def versionOf : Json → Json
  | .obj kvs => (kvs.lookup "Version").getD Json.null
  | _ => Json.null

theorem firstWhere_version (v : String) :
    ∀ (rs : List Json), (∀ x ∈ rs, ∃ kvs, x = Json.obj kvs) →
      firstWhere (fun x => do
        let xv ← pyGetD x "Version" Json.null
        pure (xv = Json.str v)) rs
      = .ok (rs.find? (fun x => decide (versionOf x = Json.str v)))
  | [], _ => rfl
  | x :: rs, hwf => by
    have hrec := firstWhere_version v rs (fun y hy => hwf y (List.mem_cons_of_mem x hy))
    obtain ⟨kvs, rfl⟩ := hwf x (List.mem_cons_self x rs)
    by_cases h : (kvs.lookup "Version").getD Json.null = Json.str v
    · simp [firstWhere, List.find?, versionOf, h]
    · have hd : (decide (versionOf (Json.obj kvs) = Json.str v)) = false := by
        simpa [versionOf] using h
      simp only [firstWhere, pyGetD_obj, py_ok_bind, py_pure_eq, List.find?, hd]
      rw [if_neg (by simpa using h)]
      simpa only [py_pure_eq] using hrec

/-- **C4 (amended)** — the release selector: the empty list yields `None`
for any version argument; a non-empty list with no version — or with an
*empty-string* version, which Python truthiness treats the same as
`None` — yields the first element as given; a non-empty version string
selects the first release whose `Version` field equals it exactly
(case-sensitively), and `None` when no element matches. -/
theorem findRelease_spec :
    (∀ v : Option String, findRelease (Json.arr []) v = .ok none)
    ∧ (∀ (r : Json) (rs : List Json), findRelease (Json.arr (r :: rs)) none = .ok (some r))
    ∧ (∀ (r : Json) (rs : List Json), findRelease (Json.arr (r :: rs)) (some "") = .ok (some r))
    ∧ (∀ (v : String) (rs : List Json), v ≠ "" → (∀ x ∈ rs, ∃ kvs, x = Json.obj kvs) →
        findRelease (Json.arr rs) (some v)
          = .ok (rs.find? (fun x => decide (versionOf x = Json.str v)))) := by
  refine ⟨fun v => rfl, fun r rs => rfl, fun r rs => rfl, fun v rs hv hwf => ?_⟩
  have ht : optStrTruthy (some v) = true := by simpa [optStrTruthy] using hv
  simp only [findRelease, truthy_arr, ht, pyIter_arr, py_ok_bind, if_true]
  rcases rs with _ | ⟨r, rs'⟩
  · rfl
  · simp only [List.isEmpty_cons, Bool.not_false, if_neg (by simp : ¬ (true = false))]
    simpa using firstWhere_version v (r :: rs') hwf

/-- Counterexample to C4 as stated: with the version argument supplied as
the *empty string* and a single release whose version is "1.0" (so no
release matches "" exactly), the selector does not return `None` — Python
truthiness routes the empty string to the latest-release branch and the
first element is returned. -/
theorem findRelease_c4_counterexample :
    findRelease (Json.arr [Json.obj [("Version", Json.str "1.0")]]) (some "")
      = .ok (some (Json.obj [("Version", Json.str "1.0")]))
    ∧ findRelease (Json.arr [Json.obj [("Version", Json.str "1.0")]]) (some "") ≠ .ok none
    ∧ versionOf (Json.obj [("Version", Json.str "1.0")]) ≠ Json.str "" := by
  refine ⟨rfl, fun h => ?_, by decide⟩
  have := Except.ok.inj h
  exact Option.noConfusion this

/-- Witness for C4: the exact-match branch at a concrete two-release
list returns the second release for version "2.0". -/
theorem findRelease_spec_witness :
    findRelease (Json.arr [Json.obj [("Version", Json.str "1.0")],
        Json.obj [("Version", Json.str "2.0")]]) (some "2.0")
      = .ok ([Json.obj [("Version", Json.str "1.0")],
          Json.obj [("Version", Json.str "2.0")]].find?
            (fun x => decide (versionOf x = Json.str "2.0"))) :=
  findRelease_spec.2.2.2 "2.0" _ (by decide)
    (by intro x hx; fin_cases hx <;> exact ⟨_, rfl⟩)

/-! ### C6: the name resolver -/

/-- The name a collection entry contributes to the case-insensitive match
of `_get_by_name` (`x.get('Name', '')`). -/
def nameOf : Json → String
  | .obj kvs =>
    match kvs.lookup "Name" with
    | some (.str s) => s
    | _ => ""
  | _ => ""

/-- An entry whose `Name` lookup cannot raise: a dict whose `Name` field,
if present, is a string. -/
def NamedEntity (x : Json) : Prop :=
  ∃ kvs, x = Json.obj kvs ∧
    (kvs.lookup "Name" = none ∨ ∃ s, kvs.lookup "Name" = some (Json.str s))

theorem firstWhere_name (name : String) :
    ∀ (items : List Json), (∀ x ∈ items, NamedEntity x) →
      firstWhere (fun x => do
        let n ← pyGetD x "Name" (Json.str "")
        let ln ← pyLower n
        pure (ln = strLower name)) items
      = .ok (items.find? (fun x => decide (strLower (nameOf x) = strLower name)))
  | [], _ => rfl
  | x :: items, hwf => by
    have hrec := firstWhere_name name items (fun y hy => hwf y (List.mem_cons_of_mem x hy))
    obtain ⟨kvs, rfl, hn⟩ := hwf x (List.mem_cons_self x items)
    have hval : ∃ s, (kvs.lookup "Name").getD (Json.str "") = Json.str s ∧ nameOf (Json.obj kvs) = s := by
      rcases hn with h | ⟨s, h⟩
      · exact ⟨"", by simp [h], by simp [nameOf, h]⟩
      · exact ⟨s, by simp [h], by simp [nameOf, h]⟩
    obtain ⟨s, hs, hname⟩ := hval
    by_cases h : strLower s = strLower name
    · simp [firstWhere, List.find?, hs, hname, h]
    · have hd : (decide (strLower (nameOf (Json.obj kvs)) = strLower name)) = false := by
        simpa [hname] using h
      simp only [firstWhere, pyGetD_obj, hs, py_ok_bind, pyLower_str, py_pure_eq,
        List.find?, hd]
      rw [if_neg (by simpa using h)]
      simpa only [py_pure_eq] using hrec

/-- **C6** — the name resolver: for a collection response in either bare
or wrapped form without an error marker, `_get_by_name` returns the first
entry whose `Name` equals the requested name case-insensitively (first
match wins among duplicates) and `None` when no entry matches; space
resolution with the space-name argument omitted uses the Python default
"Default". -/
theorem getByName_spec (req : ReqFn) (uri name : String) (resp : Json) (items : List Json)
    (hresp : req uri "GET" Json.null = resp)
    (herr : pyMem "error" resp = .ok false)
    (hitems : itemsOrSelf resp = .ok (Json.arr items))
    (hwf : ∀ x ∈ items, NamedEntity x) :
    getByName req uri name
      = .ok (items.find? (fun x => decide (strLower (nameOf x) = strLower name)))
    ∧ getSpaceNoArg req = getSpace req "Default" := by
  refine ⟨?_, rfl⟩
  simp only [getByName, hresp, herr, py_ok_bind, Bool.false_eq_true, if_false,
    hitems, pyIter_arr]
  exact firstWhere_name name items hwf

/-- Witness for C6: resolving "default" against a one-space collection
named "Default" finds it case-insensitively. -/
theorem getByName_spec_witness :
    getByName (fun e _ _ => if e = "spaces/all"
        then Json.arr [Json.obj [("Id", Json.str "Spaces-1"), ("Name", Json.str "Default")]]
        else Json.null) "spaces/all" "default"
      = .ok ([Json.obj [("Id", Json.str "Spaces-1"), ("Name", Json.str "Default")]].find?
          (fun x => decide (strLower (nameOf x) = strLower "default")))
    ∧ getSpaceNoArg (fun e _ _ => if e = "spaces/all"
        then Json.arr [Json.obj [("Id", Json.str "Spaces-1"), ("Name", Json.str "Default")]]
        else Json.null)
      = getSpace (fun e _ _ => if e = "spaces/all"
        then Json.arr [Json.obj [("Id", Json.str "Spaces-1"), ("Name", Json.str "Default")]]
        else Json.null) "Default" :=
  getByName_spec _ "spaces/all" "default" _ _ rfl rfl rfl
    (by intro x hx; fin_cases hx; exact ⟨_, rfl, Or.inr ⟨_, rfl⟩⟩)

/-! ### C8: the project-not-found message of `get_project_details` -/

/-- The world used to exhibit C8 and to witness its amended claim: a
"Default" space exists, its project collection is empty. -/
def c8world : ReqFn := fun e _ _ =>
  if e = "spaces/all" then
    Json.arr [Json.obj [("Id", Json.str "Spaces-1"), ("Name", Json.str "Default")]]
  else if e = "Spaces-1/projects/all" then
    Json.arr []
  else Json.null

/-- Counterexample to C8 as stated: when the space resolves but the
project does not, `get_project_details` returns the message
`Project 'Web' not found in space 'Default'` — not
`Project 'Web' not found in Default space` as the claim has it (that
wording belongs to the other tools). -/
theorem getProjectDetails_c8_counterexample :
    getProjectDetails c8world "Web" "Default"
      = .ok (errJson "Project 'Web' not found in space 'Default'")
    ∧ getProjectDetails c8world "Web" "Default"
      ≠ .ok (errJson "Project 'Web' not found in Default space") := by
  exact ⟨by decide, by decide⟩

/-- **C8 (amended)** — when the space resolves but the requested project
name does not resolve within it, `get_project_details` returns the error
payload with message exactly
`Project '<name>' not found in space '<space>'`. -/
theorem getProjectDetails_project_notfound (req : ReqFn) (projectName spaceName : String)
    (space sid : Json) (po : Option Json)
    (hpn : projectName ≠ "")
    (hsp : getSpace req spaceName = .ok (some space))
    (hsid : pySub space "Id" = .ok sid)
    (hproj : getByName req (pyStr sid ++ "/projects/all") projectName = .ok po)
    (hpo : truthyOpt po = none) :
    getProjectDetails req projectName spaceName
      = .ok (errJson ("Project '" ++ projectName ++ "' not found in space '" ++ spaceName ++ "'")) := by
  simp only [getProjectDetails, if_neg hpn, hsp, py_ok_bind, hsid, hproj, hpo]
  rfl

/-- Witness for the amended C8 at the concrete world. -/
theorem getProjectDetails_project_notfound_witness :
    getProjectDetails c8world "Web" "Default"
      = .ok (errJson ("Project '" ++ "Web" ++ "' not found in space '" ++ "Default" ++ "'")) :=
  getProjectDetails_project_notfound c8world "Web" "Default"
    (Json.obj [("Id", Json.str "Spaces-1"), ("Name", Json.str "Default")])
    (Json.str "Spaces-1") none
    (by decide) (by decide) (by decide) (by decide) rfl

/-! ### C2: collection response shapes -/

/-- A wrapped (`Items`) releases collection, for the C2 comparison
world. -/
def c2rel : Json := Json.obj [("Id", Json.str "Releases-1"), ("Version", Json.str "1.0.0")]

/-- C2 comparison world, wrapped form: the releases endpoint answers
`(Items: [c2rel])`. -/
def c2wrapped : ReqFn := fun e _ _ =>
  if e = "spaces/all" then
    Json.arr [Json.obj [("Id", Json.str "Spaces-1"), ("Name", Json.str "Default")]]
  else if e = "Spaces-1/projects/all" then
    Json.arr [Json.obj [("Id", Json.str "Projects-1"), ("Name", Json.str "MyApp")]]
  else if e = "Spaces-1/projects/Projects-1/releases" then
    Json.obj [("Items", Json.arr [c2rel])]
  else Json.null

/-- C2 comparison world, bare form: identical to `c2wrapped` except the
releases endpoint answers the bare list `[c2rel]` — the same ordered
sequence. -/
def c2bare : ReqFn := fun e m d =>
  if e = "Spaces-1/projects/Projects-1/releases" then Json.arr [c2rel]
  else c2wrapped e m d

/-- Counterexample to C2 as stated: `get_latest_release` does *not*
behave identically when the releases collection comes back as a bare
list instead of `(Items: [...])` — the source reads
`releases_response.get("Items", [])`, and a Python list has no `.get`,
so the bare form raises AttributeError while the wrapped form
succeeds. -/
theorem c2_counterexample :
    c2bare "Spaces-1/projects/Projects-1/releases" "GET" Json.null = Json.arr [c2rel]
    ∧ c2wrapped "Spaces-1/projects/Projects-1/releases" "GET" Json.null
        = Json.obj [("Items", Json.arr [c2rel])]
    ∧ getLatestRelease c2bare "MyApp" "Default" = .error "AttributeError"
    ∧ getLatestRelease c2bare "MyApp" "Default" ≠ getLatestRelease c2wrapped "MyApp" "Default" := by
  exact ⟨by decide, by decide, by decide, by decide⟩

/-- **C2 (amended)** — the collections consumed through `_get_by_name`
(spaces, projects, channels, environments) and the bulk
environments/package-version fetches accept a response in either
bare-list or `(Items: [...])` form uniformly; but the project-releases and
release-deployments collections are read with
`response.get("Items", [])`, which accepts only the wrapped object form —
on a bare list the `.get` call raises AttributeError. -/
theorem collectionShapes_spec (req1 req2 reqe1 reqe2 : ReqFn) (uri name : String)
    (items envs : List Json) (spaceId : Json) (xs : List Json)
    (h1 : req1 uri "GET" Json.null = Json.arr items)
    (h2 : req2 uri "GET" Json.null = Json.obj [("Items", Json.arr items)])
    (hne : items.contains (Json.str "error") = false)
    (h3 : reqe1 (pyStr spaceId ++ "/environments/all") "GET" Json.null = Json.arr envs)
    (h4 : reqe2 (pyStr spaceId ++ "/environments/all") "GET" Json.null
        = Json.obj [("Items", Json.arr envs)])
    (hne2 : envs.contains (Json.str "error") = false) :
    getByName req1 uri name = getByName req2 uri name
    ∧ getEnvironmentsToCheck reqe1 spaceId none = .ok (Json.arr envs)
    ∧ getEnvironmentsToCheck reqe2 spaceId none = .ok (Json.arr envs)
    ∧ pyGetD (Json.arr xs) "Items" (Json.arr []) = .error "AttributeError" := by
  have hbe : (("error" : String) == "Items") = false := by decide
  have hbi : (("Items" : String) == "Items") = true := by decide
  refine ⟨?_, ?_, ?_, rfl⟩
  · simp only [getByName, h1, h2, pyMem_arr, pyMem_obj, hne, py_ok_bind,
      List.lookup, hbe, hbi, itemsOrSelf, Json.isArr, Option.isSome_none,
      Bool.false_eq_true, if_false, Option.getD_some, pyIter_arr]
    rfl
  · simp only [getEnvironmentsToCheck, optStrTruthy, h3, pyMem_arr, hne2, py_ok_bind,
      Bool.false_eq_true, if_false, itemsOrSelf, Json.isArr]
    rfl
  · simp only [getEnvironmentsToCheck, optStrTruthy, h4, pyMem_obj, py_ok_bind,
      List.lookup, hbe, hbi, itemsOrSelf, Json.isArr, Option.isSome_none,
      Bool.false_eq_true, if_false, Option.getD_some]
    rfl

/-- Witness for the amended C2: concrete bare/wrapped pairs resolve the
same entity through the name resolver and the environments fetch, and the
releases-style `.get` on a bare list raises. -/
theorem collectionShapes_spec_witness :
    getByName (fun e _ _ => if e = "u" then Json.arr [Json.obj [("Name", Json.str "X")]] else Json.null) "u" "x"
      = getByName (fun e _ _ => if e = "u" then Json.obj [("Items", Json.arr [Json.obj [("Name", Json.str "X")]])] else Json.null) "u" "x"
    ∧ getEnvironmentsToCheck (fun e _ _ => if e = "S/environments/all" then Json.arr [Json.obj [("Name", Json.str "E")]] else Json.null) (Json.str "S") none
      = .ok (Json.arr [Json.obj [("Name", Json.str "E")]])
    ∧ getEnvironmentsToCheck (fun e _ _ => if e = "S/environments/all" then Json.obj [("Items", Json.arr [Json.obj [("Name", Json.str "E")]])] else Json.null) (Json.str "S") none
      = .ok (Json.arr [Json.obj [("Name", Json.str "E")]])
    ∧ pyGetD (Json.arr [c2rel]) "Items" (Json.arr []) = .error "AttributeError" :=
  collectionShapes_spec _ _ _ _ "u" "x" [Json.obj [("Name", Json.str "X")]]
    [Json.obj [("Name", Json.str "E")]] (Json.str "S") [c2rel]
    (by decide) (by decide) (by decide) (by decide) (by decide) (by decide)

/-! ### C3: the active-environments sentinel of `get_project_details` -/

/-- **C3** — when space and project resolve, `get_project_details` reports
`active_environments` as the derived list when it is non-empty, and as the
literal sentinel string
"There is no active environment with a release for this project" when the
derived list is empty (a string, not an empty list). -/
theorem getProjectDetails_sentinel (req : ReqFn) (projectName spaceName : String)
    (skvs pkvs : List (String × Json)) (sid pid : Json) (envs : List Json)
    (hpn : projectName ≠ "")
    (hsp : getSpace req spaceName = .ok (some (Json.obj skvs)))
    (hsid : pySub (Json.obj skvs) "Id" = .ok sid)
    (hproj : getByName req (pyStr sid ++ "/projects/all") projectName = .ok (some (Json.obj pkvs)))
    (hpt : (Json.obj pkvs).truthy = true)
    (hpid : pySub (Json.obj pkvs) "Id" = .ok pid)
    (henv : getActiveEnvironments req sid pid = .ok envs) :
    getProjectDetails req projectName spaceName = .ok (Json.obj [
      ("success", Json.bool true),
      ("space", Json.obj [("id", (skvs.lookup "Id").getD Json.null),
        ("name", (skvs.lookup "Name").getD Json.null)]),
      ("project", Json.obj [("id", (pkvs.lookup "Id").getD Json.null),
        ("name", (pkvs.lookup "Name").getD Json.null),
        ("description", (pkvs.lookup "Description").getD (Json.str "")),
        ("project_group_id", (pkvs.lookup "ProjectGroupId").getD Json.null),
        ("lifecycle_id", (pkvs.lookup "LifecycleId").getD Json.null),
        ("deployment_process_id", (pkvs.lookup "DeploymentProcessId").getD Json.null),
        ("variable_set_id", (pkvs.lookup "VariableSetId").getD Json.null)]),
      ("active_environments",
        if envs.isEmpty then Json.str sentinelNoActiveEnv else Json.arr envs)]) := by
  simp only [getProjectDetails, if_neg hpn, hsp, py_ok_bind, hsid, hproj,
    truthyOpt_some, hpt, if_true, hpid, henv, pyGetD_obj, py_pure_eq]

/-- The world used to witness C3: the project exists but its releases
collection is empty, so the derived active-environment list is empty. -/
def c3world : ReqFn := fun e _ _ =>
  if e = "spaces/all" then
    Json.arr [Json.obj [("Id", Json.str "Spaces-1"), ("Name", Json.str "Default")]]
  else if e = "Spaces-1/projects/all" then
    Json.arr [Json.obj [("Id", Json.str "Projects-1"), ("Name", Json.str "MyApp")]]
  else if e = "Spaces-1/projects/Projects-1/releases" then
    Json.obj [("Items", Json.arr [])]
  else Json.null

/-- Witness for C3: at the concrete world the derived list is empty and
the payload carries the sentinel string. -/
theorem getProjectDetails_sentinel_witness :
    getProjectDetails c3world "MyApp" "Default" = .ok (Json.obj [
      ("success", Json.bool true),
      ("space", Json.obj [("id", ([(("Id" : String), Json.str "Spaces-1"), ("Name", Json.str "Default")].lookup "Id").getD Json.null),
        ("name", ([(("Id" : String), Json.str "Spaces-1"), ("Name", Json.str "Default")].lookup "Name").getD Json.null)]),
      ("project", Json.obj [("id", ([(("Id" : String), Json.str "Projects-1"), ("Name", Json.str "MyApp")].lookup "Id").getD Json.null),
        ("name", ([(("Id" : String), Json.str "Projects-1"), ("Name", Json.str "MyApp")].lookup "Name").getD Json.null),
        ("description", ([(("Id" : String), Json.str "Projects-1"), ("Name", Json.str "MyApp")].lookup "Description").getD (Json.str "")),
        ("project_group_id", ([(("Id" : String), Json.str "Projects-1"), ("Name", Json.str "MyApp")].lookup "ProjectGroupId").getD Json.null),
        ("lifecycle_id", ([(("Id" : String), Json.str "Projects-1"), ("Name", Json.str "MyApp")].lookup "LifecycleId").getD Json.null),
        ("deployment_process_id", ([(("Id" : String), Json.str "Projects-1"), ("Name", Json.str "MyApp")].lookup "DeploymentProcessId").getD Json.null),
        ("variable_set_id", ([(("Id" : String), Json.str "Projects-1"), ("Name", Json.str "MyApp")].lookup "VariableSetId").getD Json.null)]),
      ("active_environments",
        if ([] : List Json).isEmpty then Json.str sentinelNoActiveEnv else Json.arr [])]) :=
  getProjectDetails_sentinel c3world "MyApp" "Default"
    [("Id", Json.str "Spaces-1"), ("Name", Json.str "Default")]
    [("Id", Json.str "Projects-1"), ("Name", Json.str "MyApp")]
    (Json.str "Spaces-1") (Json.str "Projects-1") []
    (by decide) (by decide) (by decide) (by decide) (by decide) (by decide) (by decide)

/-! ### C9: check_deployment_status with no environment name and no
environments -/

/-- **C9** — with `environment_name` absent (the empty-string tool
default, normalized to `None`), if the bulk environments fetch returns an
error value or an empty collection, `check_deployment_status` returns the
environment-not-found error payload whose message interpolates the absent
name as "None", rather than succeeding with zero environments checked. -/
theorem checkDeploymentStatus_no_environments (req : ReqFn)
    (projectName releaseVersion spaceName m : String)
    (space sid project pid release : Json) (rkvs : List (String × Json)) (rs : List Json)
    (hpn : projectName ≠ "")
    (hsp : getSpace req spaceName = .ok (some space))
    (hsid : pySub space "Id" = .ok sid)
    (hproj : getByName req (pyStr sid ++ "/projects/all") projectName = .ok (some project))
    (hpt : project.truthy = true)
    (hpid : pySub project "Id" = .ok pid)
    (hrel : req (pyStr sid ++ "/projects/" ++ pyStr pid ++ "/releases") "GET" Json.null = Json.obj rkvs)
    (hrerr : rkvs.lookup "error" = none)
    (hritems : (rkvs.lookup "Items").getD (Json.arr []) = Json.arr rs)
    (hrs : rs.isEmpty = false)
    (hfind : findRelease (Json.arr rs)
        (if releaseVersion = "" then none else some (strStrip releaseVersion)) = .ok (some release))
    (hrt : release.truthy = true)
    (hcase : req (pyStr sid ++ "/environments/all") "GET" Json.null = errJson m
      ∨ req (pyStr sid ++ "/environments/all") "GET" Json.null = Json.arr []) :
    checkDeploymentStatus req projectName releaseVersion "" spaceName
      = .ok (errJson ("Environment 'None' not found in " ++ spaceName ++ " space")) := by
  have hmsg : ("Environment '" ++ pyStrOpt none ++ "' not found in ")
      = "Environment 'None' not found in " := by decide
  have henvs : getEnvironmentsToCheck req sid none = .ok (Json.arr []) := by
    rcases hcase with hc | hc
    · simp only [getEnvironmentsToCheck, optStrTruthy, Bool.false_eq_true, if_false,
        hc, errJson, pyMem_obj, py_ok_bind, List.lookup]
      rfl
    · simp only [getEnvironmentsToCheck, optStrTruthy, Bool.false_eq_true, if_false,
        hc, pyMem_arr, py_ok_bind]
      rfl
  simp only [checkDeploymentStatus, if_neg hpn, hsp, py_ok_bind, hsid, hproj,
    truthyOpt_some, hpt, if_true, hpid, getProjectReleases, hrel, pyMem_obj,
    hrerr, Option.isSome_none, Bool.false_eq_true, if_false, pyGetD_obj, hritems,
    truthy_arr, hrs, Bool.not_false, hfind, hrt]
  rw [if_neg (by simp)]
  simp only [henvs, py_ok_bind, truthy_arr, List.isEmpty_nil, Bool.not_true]
  simp only [if_true, py_pure_eq, py_ok_bind, hmsg]

/-- The world used to witness C9: resolution succeeds down to the release
but the environments collection is empty. -/
def c9world : ReqFn := fun e _ _ =>
  if e = "spaces/all" then
    Json.arr [Json.obj [("Id", Json.str "Spaces-1"), ("Name", Json.str "Default")]]
  else if e = "Spaces-1/projects/all" then
    Json.arr [Json.obj [("Id", Json.str "Projects-1"), ("Name", Json.str "MyApp")]]
  else if e = "Spaces-1/projects/Projects-1/releases" then
    Json.obj [("Items", Json.arr [Json.obj [("Id", Json.str "Releases-1"), ("Version", Json.str "1.0.0")]])]
  else if e = "Spaces-1/environments/all" then
    Json.arr []
  else Json.null

/-- Witness for C9 at the concrete world. -/
theorem checkDeploymentStatus_no_environments_witness :
    checkDeploymentStatus c9world "MyApp" "" "" "Default"
      = .ok (errJson ("Environment 'None' not found in " ++ "Default" ++ " space")) :=
  checkDeploymentStatus_no_environments c9world "MyApp" "" "Default" "unused"
    (Json.obj [("Id", Json.str "Spaces-1"), ("Name", Json.str "Default")])
    (Json.str "Spaces-1")
    (Json.obj [("Id", Json.str "Projects-1"), ("Name", Json.str "MyApp")])
    (Json.str "Projects-1")
    (Json.obj [("Id", Json.str "Releases-1"), ("Version", Json.str "1.0.0")])
    [("Items", Json.arr [Json.obj [("Id", Json.str "Releases-1"), ("Version", Json.str "1.0.0")]])]
    [Json.obj [("Id", Json.str "Releases-1"), ("Version", Json.str "1.0.0")]]
    (by decide) (by decide) (by decide) (by decide) (by decide) (by decide)
    (by decide) (by decide) (by decide) (by decide) (by decide) (by decide)
    (Or.inr (by decide))

/-! ### C7: check_deployment_status summary and omission of
non-deployed environments -/

theorem statusesGo_skip (req : ReqFn) (dsJson : Json) (dlist : List Json)
    (hdl : pyIter dsJson = .ok dlist) (env : Json) (rest : List Json) (envId : Json)
    (hId : pyGetD env "Id" Json.null = .ok envId)
    (hmatch : deploymentsMatching envId dlist = .ok []) :
    statusesGo req dsJson (env :: rest) = statusesGo req dsJson rest := by
  obtain ⟨kvs, rfl⟩ : ∃ kvs, env = Json.obj kvs := by
    cases env <;> first
      | exact ⟨_, rfl⟩
      | exact absurd hId (by simp [pyGetD])
  have hidv : (kvs.lookup "Id").getD Json.null = envId := by
    simpa [pyGetD] using hId
  simp only [statusesGo, pyGetD_obj, py_ok_bind, hdl, hidv, hmatch]

theorem statusesGo_all_empty (req : ReqFn) (dsJson : Json) (dlist : List Json)
    (hdl : pyIter dsJson = .ok dlist) :
    ∀ envs : List Json,
      (∀ env ∈ envs, ∃ envId, pyGetD env "Id" Json.null = .ok envId
        ∧ deploymentsMatching envId dlist = .ok []) →
      statusesGo req dsJson envs = .ok []
  | [], _ => rfl
  | env :: rest, h => by
    obtain ⟨envId, hId, hm⟩ := h env (List.mem_cons_self env rest)
    rw [statusesGo_skip req dsJson dlist hdl env rest envId hId hm]
    exact statusesGo_all_empty req dsJson dlist hdl rest
      (fun e he => h e (List.mem_cons_of_mem env he))

/-- **C7** — for a successful `check_deployment_status`: the payload's
`deployment_statuses` is exactly the list built by
`_build_environment_statuses`, the summary satisfies
`deployed_count = environments_with_deployments = len(deployment_statuses)`
and `total_environments_checked = number of environments checked`; an
environment whose matching-deployment list is empty is silently skipped by
the builder; and if every checked environment has no matching deployment
the built list is empty (hence both counts are 0 while the payload is
still a success). -/
theorem checkDeploymentStatus_summary (req : ReqFn)
    (projectName releaseVersion environmentName spaceName : String)
    (skvs pjkvs rlkvs rkvs dkvs : List (String × Json)) (sid pid relId : Json)
    (rs envs dlist statuses : List Json) (dsJson : Json)
    (hpn : projectName ≠ "")
    (hsp : getSpace req spaceName = .ok (some (Json.obj skvs)))
    (hsid : pySub (Json.obj skvs) "Id" = .ok sid)
    (hproj : getByName req (pyStr sid ++ "/projects/all") projectName = .ok (some (Json.obj pjkvs)))
    (hpt : (Json.obj pjkvs).truthy = true)
    (hpid : pySub (Json.obj pjkvs) "Id" = .ok pid)
    (hrel : req (pyStr sid ++ "/projects/" ++ pyStr pid ++ "/releases") "GET" Json.null = Json.obj rkvs)
    (hrerr : rkvs.lookup "error" = none)
    (hritems : (rkvs.lookup "Items").getD (Json.arr []) = Json.arr rs)
    (hrs : rs.isEmpty = false)
    (hfind : findRelease (Json.arr rs)
        (if releaseVersion = "" then none else some (strStrip releaseVersion))
      = .ok (some (Json.obj rlkvs)))
    (hrt : (Json.obj rlkvs).truthy = true)
    (henvs : getEnvironmentsToCheck req sid
        (if environmentName = "" then none else some (strStrip environmentName))
      = .ok (Json.arr envs))
    (hne : envs.isEmpty = false)
    (hrelid : rlkvs.lookup "Id" = some relId)
    (hdep : req (pyStr sid ++ "/releases/" ++ pyStr relId ++ "/deployments") "GET" Json.null = Json.obj dkvs)
    (hderr : dkvs.lookup "error" = none)
    (hditems : (dkvs.lookup "Items").getD (Json.arr []) = dsJson)
    (hdl : pyIter dsJson = .ok dlist)
    (hb : buildEnvironmentStatuses req (Json.arr envs) dsJson = .ok statuses) :
    (checkDeploymentStatus req projectName releaseVersion environmentName spaceName
      = .ok (Json.obj [("success", Json.bool true),
          ("space", Json.obj [("id", (skvs.lookup "Id").getD Json.null),
            ("name", (skvs.lookup "Name").getD Json.null)]),
          ("project", Json.obj [("id", (pjkvs.lookup "Id").getD Json.null),
            ("name", (pjkvs.lookup "Name").getD Json.null)]),
          ("release", Json.obj [("id", (rlkvs.lookup "Id").getD Json.null),
            ("version", (rlkvs.lookup "Version").getD Json.null)]),
          ("deployment_statuses", Json.arr statuses),
          ("summary", Json.obj [
            ("total_environments_checked", Json.num envs.length),
            ("deployed_count", Json.num statuses.length),
            ("environments_with_deployments", Json.num statuses.length)])]))
    ∧ (∀ env rest envId, pyGetD env "Id" Json.null = .ok envId →
        deploymentsMatching envId dlist = .ok [] →
        statusesGo req dsJson (env :: rest) = statusesGo req dsJson rest)
    ∧ ((∀ env ∈ envs, ∃ envId, pyGetD env "Id" Json.null = .ok envId
          ∧ deploymentsMatching envId dlist = .ok []) → statuses = []) := by
  have hrids : pySub (Json.obj rlkvs) "Id" = .ok relId := pySub_lookup rlkvs "Id" relId hrelid
  refine ⟨?_, ?_, ?_⟩
  · simp only [checkDeploymentStatus, if_neg hpn, hsp, py_ok_bind, hsid, hproj,
      truthyOpt_some, hpt, if_true, hpid, getProjectReleases, hrel, pyMem_obj,
      hrerr, Option.isSome_none, Bool.false_eq_true, if_false, pyGetD_obj, hritems,
      truthy_arr, hrs, Bool.not_false, hfind, hrt, henvs, hne, hrids,
      hdep, hderr, hditems, hb, pyLen_arr, py_pure_eq]
    rw [if_neg (by simp), if_neg (by simp)]
  · intro env rest envId hId hm
    exact statusesGo_skip req dsJson dlist hdl env rest envId hId hm
  · intro hall
    have h0 : statusesGo req dsJson envs = .ok [] :=
      statusesGo_all_empty req dsJson dlist hdl envs hall
    have hb' : buildEnvironmentStatuses req (Json.arr envs) dsJson = .ok [] := by
      simp only [buildEnvironmentStatuses, pyIter_arr, py_ok_bind, h0]
    rw [hb] at hb'
    exact Except.ok.inj hb'

/-- Environments used in the C7 witness world. -/
def c7env1 : Json := Json.obj [("Id", Json.str "Environments-1"), ("Name", Json.str "Production")]

/-- The second, never-deployed-to environment of the C7 witness world. -/
def c7env2 : Json := Json.obj [("Id", Json.str "Environments-2"), ("Name", Json.str "Staging")]

/-- The single deployment of the C7 witness world (into Production). -/
def c7dep : Json := Json.obj [("Id", Json.str "Deployments-1"),
  ("EnvironmentId", Json.str "Environments-1"), ("TaskId", Json.str "ServerTasks-1")]

/-- The C7 witness world: two environments, one deployment (with a
completed task) in the first, none in the second. -/
def c7world : ReqFn := fun e _ _ =>
  if e = "spaces/all" then
    Json.arr [Json.obj [("Id", Json.str "Spaces-1"), ("Name", Json.str "Default")]]
  else if e = "Spaces-1/projects/all" then
    Json.arr [Json.obj [("Id", Json.str "Projects-1"), ("Name", Json.str "MyApp")]]
  else if e = "Spaces-1/projects/Projects-1/releases" then
    Json.obj [("Items", Json.arr [Json.obj [("Id", Json.str "Releases-1"), ("Version", Json.str "1.0.0")]])]
  else if e = "Spaces-1/environments/all" then
    Json.arr [c7env1, c7env2]
  else if e = "Spaces-1/releases/Releases-1/deployments" then
    Json.obj [("Items", Json.arr [c7dep])]
  else if e = "tasks/ServerTasks-1" then
    Json.obj [("State", Json.str "Success"), ("IsCompleted", Json.bool true)]
  else Json.null

/-- The single status entry produced at the C7 witness world: Production
carries the deployment, Staging is omitted. -/
def c7status : Json := Json.obj
  [("environment", Json.obj [("id", Json.str "Environments-1"), ("name", Json.str "Production")]),
   ("deployment_status", Json.obj
     [("deployment_id", Json.str "Deployments-1"),
      ("state", Json.str "Success"),
      ("completed", Json.bool true),
      ("started", Json.null),
      ("completed_time", Json.null),
      ("duration", Json.null),
      ("task_id", Json.str "ServerTasks-1"),
      ("deployed_by", Json.null),
      ("comments", Json.str "")])]

/-- Witness for C7: two environments checked, one deployed; the payload
lists one status entry and the summary reads 2 / 1 / 1. -/
theorem checkDeploymentStatus_summary_witness :
    checkDeploymentStatus c7world "MyApp" "" "" "Default"
      = .ok (Json.obj [("success", Json.bool true),
          ("space", Json.obj [("id", ([(("Id" : String), Json.str "Spaces-1"), ("Name", Json.str "Default")].lookup "Id").getD Json.null),
            ("name", ([(("Id" : String), Json.str "Spaces-1"), ("Name", Json.str "Default")].lookup "Name").getD Json.null)]),
          ("project", Json.obj [("id", ([(("Id" : String), Json.str "Projects-1"), ("Name", Json.str "MyApp")].lookup "Id").getD Json.null),
            ("name", ([(("Id" : String), Json.str "Projects-1"), ("Name", Json.str "MyApp")].lookup "Name").getD Json.null)]),
          ("release", Json.obj [("id", ([(("Id" : String), Json.str "Releases-1"), ("Version", Json.str "1.0.0")].lookup "Id").getD Json.null),
            ("version", ([(("Id" : String), Json.str "Releases-1"), ("Version", Json.str "1.0.0")].lookup "Version").getD Json.null)]),
          ("deployment_statuses", Json.arr [c7status]),
          ("summary", Json.obj [
            ("total_environments_checked", Json.num ([c7env1, c7env2] : List Json).length),
            ("deployed_count", Json.num ([c7status] : List Json).length),
            ("environments_with_deployments", Json.num ([c7status] : List Json).length)])]) :=
  (checkDeploymentStatus_summary c7world "MyApp" "" "" "Default"
    [("Id", Json.str "Spaces-1"), ("Name", Json.str "Default")]
    [("Id", Json.str "Projects-1"), ("Name", Json.str "MyApp")]
    [("Id", Json.str "Releases-1"), ("Version", Json.str "1.0.0")]
    [("Items", Json.arr [Json.obj [("Id", Json.str "Releases-1"), ("Version", Json.str "1.0.0")]])]
    [("Items", Json.arr [c7dep])]
    (Json.str "Spaces-1") (Json.str "Projects-1") (Json.str "Releases-1")
    [Json.obj [("Id", Json.str "Releases-1"), ("Version", Json.str "1.0.0")]]
    [c7env1, c7env2] [c7dep] [c7status] (Json.arr [c7dep])
    (by decide) (by decide) (by decide) (by decide) (by decide) (by decide)
    (by decide) (by decide) (by decide) (by decide) (by decide) (by decide)
    (by decide) (by decide) (by decide) (by decide) (by decide) (by decide)
    (by decide) (by decide)).1

/-! ### C1: deploy_release returns the advisory success payload even when
the deployment-creation POST fails -/

/-- **C1** — when space, project, release and environment all resolve,
`deploy_release` returns a success-shaped payload (`success: true`) with
the fixed advisory message and the next-step pointer, built from whatever
object the deployment-creation POST returned; when that POST returned an
error value (which always has the shape `(error: <msg>)`), the
`deployment` sub-object's id/name/state/created/task_id are all null. -/
theorem deployRelease_advisory (req : ReqFn) (projectName environmentName spaceName : String)
    (releaseVersion : Option String)
    (skvs pjkvs rlkvs evkvs pkvs rkvs : List (String × Json)) (sid pid : Json) (rs : List Json)
    (hpn : projectName ≠ "") (hen : environmentName ≠ "")
    (hsp : getSpace req spaceName = .ok (some (Json.obj skvs)))
    (hsid : pySub (Json.obj skvs) "Id" = .ok sid)
    (hproj : getByName req (pyStr sid ++ "/projects/all") projectName = .ok (some (Json.obj pjkvs)))
    (hpt : (Json.obj pjkvs).truthy = true)
    (hpid : pySub (Json.obj pjkvs) "Id" = .ok pid)
    (hrel : req (pyStr sid ++ "/projects/" ++ pyStr pid ++ "/releases") "GET" Json.null = Json.obj rkvs)
    (hrerr : rkvs.lookup "error" = none)
    (hritems : (rkvs.lookup "Items").getD (Json.arr []) = Json.arr rs)
    (hrs : rs.isEmpty = false)
    (hfind : findRelease (Json.arr rs) releaseVersion = .ok (some (Json.obj rlkvs)))
    (hrt : (Json.obj rlkvs).truthy = true)
    (henv : getByName req (pyStr sid ++ "/environments/all") environmentName = .ok (some (Json.obj evkvs)))
    (het : (Json.obj evkvs).truthy = true)
    (hpost : req (pyStr sid ++ "/deployments") "POST"
        (Json.obj [("ReleaseId", (rlkvs.lookup "Id").getD Json.null),
                   ("EnvironmentId", (evkvs.lookup "Id").getD Json.null)]) = Json.obj pkvs) :
    (deployRelease req projectName environmentName releaseVersion spaceName
      = .ok (Json.obj [("success", Json.bool true),
          ("message", Json.str deployAdvisoryMsg),
          ("next_step", Json.str deployNextStepMsg),
          ("space", Json.obj [("id", (skvs.lookup "Id").getD Json.null),
            ("name", (skvs.lookup "Name").getD Json.null)]),
          ("project", Json.obj [("id", (pjkvs.lookup "Id").getD Json.null),
            ("name", (pjkvs.lookup "Name").getD Json.null)]),
          ("release", Json.obj [("id", (rlkvs.lookup "Id").getD Json.null),
            ("version", (rlkvs.lookup "Version").getD Json.null)]),
          ("environment", Json.obj [("id", (evkvs.lookup "Id").getD Json.null),
            ("name", (evkvs.lookup "Name").getD Json.null)]),
          ("deployment", Json.obj [("id", (pkvs.lookup "Id").getD Json.null),
            ("name", (pkvs.lookup "Name").getD Json.null),
            ("state", (pkvs.lookup "State").getD Json.null),
            ("created", (pkvs.lookup "Created").getD Json.null),
            ("task_id", (pkvs.lookup "TaskId").getD Json.null)])]))
    ∧ (∀ m, pkvs = [("error", Json.str m)] →
        Json.obj [("id", (pkvs.lookup "Id").getD Json.null),
          ("name", (pkvs.lookup "Name").getD Json.null),
          ("state", (pkvs.lookup "State").getD Json.null),
          ("created", (pkvs.lookup "Created").getD Json.null),
          ("task_id", (pkvs.lookup "TaskId").getD Json.null)]
        = Json.obj [("id", Json.null), ("name", Json.null), ("state", Json.null),
            ("created", Json.null), ("task_id", Json.null)]) := by
  have hval : ¬(projectName = "" ∨ environmentName = "") := fun h => h.elim hpn hen
  constructor
  · simp only [deployRelease, if_neg hval, hsp, py_ok_bind, hsid, hproj,
      truthyOpt_some, hpt, if_true, hpid, getProjectReleases, hrel, pyMem_obj,
      hrerr, Option.isSome_none, Bool.false_eq_true, if_false, pyGetD_obj, hritems,
      truthy_arr, hrs, Bool.not_false, pyLen_arr, hfind, hrt, henv, het, hpost,
      py_pure_eq, ite_self, deployPayload]
    rw [if_neg (by simp)]
  · intro m hm
    subst hm
    have h1 : (("Id" : String) == "error") = false := by decide
    have h2 : (("Name" : String) == "error") = false := by decide
    have h3 : (("State" : String) == "error") = false := by decide
    have h4 : (("Created" : String) == "error") = false := by decide
    have h5 : (("TaskId" : String) == "error") = false := by decide
    simp [List.lookup, h1, h2, h3, h4, h5]

/-- The C1 witness world: everything resolves, and the deployment POST
returns an error value. -/
def c1world : ReqFn := fun e m _ =>
  if e = "spaces/all" then
    Json.arr [Json.obj [("Id", Json.str "Spaces-1"), ("Name", Json.str "Default")]]
  else if e = "Spaces-1/projects/all" then
    Json.arr [Json.obj [("Id", Json.str "Projects-1"), ("Name", Json.str "MyApp")]]
  else if e = "Spaces-1/projects/Projects-1/releases" then
    Json.obj [("Items", Json.arr [Json.obj [("Id", Json.str "Releases-1"), ("Version", Json.str "1.0.0")]])]
  else if e = "Spaces-1/environments/all" then
    Json.arr [Json.obj [("Id", Json.str "Environments-1"), ("Name", Json.str "Production")]]
  else if e = "Spaces-1/deployments" ∧ m = "POST" then
    errJson "API request failed with status 500: server error"
  else Json.null

/-- Witness for C1: at the concrete world the POST fails and the result
is still the advisory success payload with null deployment fields. -/
theorem deployRelease_advisory_witness :
    deployRelease c1world "MyApp" "Production" none "Default"
      = .ok (Json.obj [("success", Json.bool true),
          ("message", Json.str deployAdvisoryMsg),
          ("next_step", Json.str deployNextStepMsg),
          ("space", Json.obj [("id", Json.str "Spaces-1"), ("name", Json.str "Default")]),
          ("project", Json.obj [("id", Json.str "Projects-1"), ("name", Json.str "MyApp")]),
          ("release", Json.obj [("id", Json.str "Releases-1"), ("version", Json.str "1.0.0")]),
          ("environment", Json.obj [("id", Json.str "Environments-1"), ("name", Json.str "Production")]),
          ("deployment", Json.obj [("id", Json.null), ("name", Json.null), ("state", Json.null),
            ("created", Json.null), ("task_id", Json.null)])]) :=
  (deployRelease_advisory c1world "MyApp" "Production" "Default" none
    [("Id", Json.str "Spaces-1"), ("Name", Json.str "Default")]
    [("Id", Json.str "Projects-1"), ("Name", Json.str "MyApp")]
    [("Id", Json.str "Releases-1"), ("Version", Json.str "1.0.0")]
    [("Id", Json.str "Environments-1"), ("Name", Json.str "Production")]
    [("error", Json.str "API request failed with status 500: server error")]
    [("Items", Json.arr [Json.obj [("Id", Json.str "Releases-1"), ("Version", Json.str "1.0.0")]])]
    (Json.str "Spaces-1") (Json.str "Projects-1")
    [Json.obj [("Id", Json.str "Releases-1"), ("Version", Json.str "1.0.0")]]
    (by decide) (by decide) (by decide) (by decide) (by decide) (by decide)
    (by decide) (by decide) (by decide) (by decide) (by decide) (by decide)
    (by decide) (by decide) (by decide) (by decide)).1

/-! ### C10: create_release silently omits packages with no available
versions -/

/-- **C10** — in the package-resolution loop of `create_release`: a
package requirement whose feed query succeeds but yields an empty version
list contributes nothing and the loop continues (no error); a feed query
returning an error value aborts the loop with that error payload; and
when the loop completes with a selected-packages list, `create_release`
proceeds to the release-creation POST (`finishCreateRelease`) with that
list. -/
theorem createRelease_package_selection (req req2 : ReqFn)
    (spaceId feedId pkgId vresp pk pkg : Json) (rest : List Json) (m : String)
    (projectName version channelName spaceName : String)
    (skvs pjkvs chkvs tkvs : List (String × Json)) (sid pid chId : Json) (ps sels : List Json)
    (hfeed : pySub pkg "FeedId" = .ok feedId)
    (hpkgid : pySub pkg "PackageId" = .ok pkgId)
    (hresp : req (pyStr spaceId ++ "/feeds/" ++ pyStr feedId ++ "/packages/versions?packageId=" ++ pyStr pkgId ++ "&take=1") "GET" Json.null = vresp)
    (hverr : pyMem "error" vresp = .ok false)
    (hvitems : itemsOrSelf vresp = .ok pk)
    (hpkf : pk.truthy = false)
    (hresp2 : req2 (pyStr spaceId ++ "/feeds/" ++ pyStr feedId ++ "/packages/versions?packageId=" ++ pyStr pkgId ++ "&take=1") "GET" Json.null = errJson m)
    (hpn : projectName ≠ "") (hv : version ≠ "")
    (hsp : getSpace req spaceName = .ok (some (Json.obj skvs)))
    (hsid : pySub (Json.obj skvs) "Id" = .ok sid)
    (hproj : getByName req (pyStr sid ++ "/projects/all") projectName = .ok (some (Json.obj pjkvs)))
    (hpt : (Json.obj pjkvs).truthy = true)
    (hpid : pySub (Json.obj pjkvs) "Id" = .ok pid)
    (hchan : getByName req (pyStr sid ++ "/projects/" ++ pyStr pid ++ "/channels") channelName = .ok (some (Json.obj chkvs)))
    (hct : (Json.obj chkvs).truthy = true)
    (hchid : chkvs.lookup "Id" = some chId)
    (htmpl : req (pyStr sid ++ "/deploymentprocesses/deploymentprocess-" ++ pyStr pid ++ "/template?channel=" ++ pyStr chId) "GET" Json.null = Json.obj tkvs)
    (hterr : tkvs.lookup "error" = none)
    (htpkgs : (tkvs.lookup "Packages").getD (Json.arr []) = Json.arr ps)
    (hbuild : buildSelectedPackages req sid ps = .ok (.inr sels)) :
    (buildSelectedPackages req spaceId (pkg :: rest) = buildSelectedPackages req spaceId rest)
    ∧ (buildSelectedPackages req2 spaceId (pkg :: rest) = .ok (.inl (errJson m)))
    ∧ (createRelease req projectName version channelName spaceName
        = finishCreateRelease req (Json.obj skvs) (Json.obj pjkvs) (Json.obj chkvs)
            sid pid projectName version sels) := by
  have hchids : pySub (Json.obj chkvs) "Id" = .ok chId := pySub_lookup chkvs "Id" chId hchid
  have hval : ¬(projectName = "" ∨ version = "") := fun h => h.elim hpn hv
  refine ⟨?_, ?_, ?_⟩
  · simp only [buildSelectedPackages, hfeed, py_ok_bind, hpkgid, hresp, hverr,
      Bool.false_eq_true, if_false, hvitems, hpkf]
    rfl
  · have he : (("error" : String) == "error") = true := by decide
    simp only [buildSelectedPackages, hfeed, py_ok_bind, hpkgid, hresp2, errJson,
      pyMem_obj, List.lookup, he, Option.isSome_some, if_true]
    rfl
  · simp only [createRelease, if_neg hval, hsp, py_ok_bind, hsid, hproj,
      truthyOpt_some, hpt, if_true, hpid, hchan, hct, hchids, htmpl, pyMem_obj,
      hterr, Option.isSome_none, Bool.false_eq_true, if_false, pyGetD_obj,
      htpkgs, pyIter_arr, hbuild]
    rfl

/-- The C10 witness world: the full create-release pipeline resolves; the
template lists one package whose feed has a version, and a second feed
endpoint answers an empty version list. -/
def c10world : ReqFn := fun e _ _ =>
  if e = "spaces/all" then
    Json.arr [Json.obj [("Id", Json.str "Spaces-1"), ("Name", Json.str "Default")]]
  else if e = "Spaces-1/projects/all" then
    Json.arr [Json.obj [("Id", Json.str "Projects-1"), ("Name", Json.str "MyApp")]]
  else if e = "Spaces-1/projects/Projects-1/channels" then
    Json.obj [("Items", Json.arr [Json.obj [("Id", Json.str "Channels-1"), ("Name", Json.str "Default")]])]
  else if e = "Spaces-1/deploymentprocesses/deploymentprocess-Projects-1/template?channel=Channels-1" then
    Json.obj [("Packages", Json.arr [Json.obj [("ActionName", Json.str "Deploy"),
      ("PackageReferenceName", Json.str ""), ("FeedId", Json.str "feeds-builtin"),
      ("PackageId", Json.str "MyApp.Web")]])]
  else if e = "Spaces-1/feeds/feeds-builtin/packages/versions?packageId=MyApp.Web&take=1" then
    Json.obj [("Items", Json.arr [Json.obj [("Version", Json.str "3.1.4")]])]
  else if e = "Spaces-1/feeds/feeds-2/packages/versions?packageId=Empty.Pkg&take=1" then
    Json.arr []
  else Json.null

/-- The package requirement, used by the C10 witness, whose feed query
yields no versions. -/
def c10emptyPkg : Json := Json.obj [("ActionName", Json.str "Deploy2"),
  ("PackageReferenceName", Json.str ""), ("FeedId", Json.str "feeds-2"),
  ("PackageId", Json.str "Empty.Pkg")]

/-- Witness for C10: the empty-version package is dropped, a feed error
aborts, and the pipeline reaches the release POST with the resolved
package list. -/
theorem createRelease_package_selection_witness :
    (buildSelectedPackages c10world (Json.str "Spaces-1") (c10emptyPkg :: [])
      = buildSelectedPackages c10world (Json.str "Spaces-1") [])
    ∧ (buildSelectedPackages (fun _ _ _ => errJson "feed down") (Json.str "Spaces-1") (c10emptyPkg :: [])
      = .ok (.inl (errJson "feed down")))
    ∧ (createRelease c10world "MyApp" "2.0.0" "Default" "Default"
        = finishCreateRelease c10world
            (Json.obj [("Id", Json.str "Spaces-1"), ("Name", Json.str "Default")])
            (Json.obj [("Id", Json.str "Projects-1"), ("Name", Json.str "MyApp")])
            (Json.obj [("Id", Json.str "Channels-1"), ("Name", Json.str "Default")])
            (Json.str "Spaces-1") (Json.str "Projects-1") "MyApp" "2.0.0"
            [Json.obj [("ActionName", Json.str "Deploy"),
              ("PackageReferenceName", Json.str ""), ("Version", Json.str "3.1.4")]]) :=
  createRelease_package_selection c10world (fun _ _ _ => errJson "feed down")
    (Json.str "Spaces-1") (Json.str "feeds-2") (Json.str "Empty.Pkg")
    (Json.arr []) (Json.arr []) c10emptyPkg [] "feed down"
    "MyApp" "2.0.0" "Default" "Default"
    [("Id", Json.str "Spaces-1"), ("Name", Json.str "Default")]
    [("Id", Json.str "Projects-1"), ("Name", Json.str "MyApp")]
    [("Id", Json.str "Channels-1"), ("Name", Json.str "Default")]
    [("Packages", Json.arr [Json.obj [("ActionName", Json.str "Deploy"),
      ("PackageReferenceName", Json.str ""), ("FeedId", Json.str "feeds-builtin"),
      ("PackageId", Json.str "MyApp.Web")]])]
    (Json.str "Spaces-1") (Json.str "Projects-1") (Json.str "Channels-1")
    [Json.obj [("ActionName", Json.str "Deploy"), ("PackageReferenceName", Json.str ""),
      ("FeedId", Json.str "feeds-builtin"), ("PackageId", Json.str "MyApp.Web")]]
    [Json.obj [("ActionName", Json.str "Deploy"), ("PackageReferenceName", Json.str ""),
      ("Version", Json.str "3.1.4")]]
    (by decide) (by decide) (by decide) (by decide) (by decide) (by decide)
    (by decide) (by decide) (by decide) (by decide) (by decide) (by decide)
    (by decide) (by decide) (by decide) (by decide) (by decide) (by decide)
    (by decide) (by decide) (by decide)

/-- Witness for C5: a concrete configuration with an empty base URL
returns the credentials error without network I/O, and a concrete good
configuration maps a 404 reply to the resource-not-found error value. -/
theorem makeRequest_spec_witness :
    makeRequest ⟨"", Json.str "key"⟩ (fun _ _ _ => .otherExn "no network") "spaces/all" "GET" Json.null =
      (errJson "Missing Octopus Deploy credentials. Please configure OCTOPUS_URL and OCTOPUS_API_KEY environment variables.", false)
    ∧ makeRequest ⟨"http://o.example/api", Json.str "key"⟩ (fun _ _ _ => .reply 404 (.ok Json.null) "") "spaces/all" "GET" Json.null =
      (errJson "Resource not found.", true) := by
  constructor
  · exact (makeRequest_spec ⟨"", Json.str "key"⟩ (fun _ _ _ => .otherExn "no network") "spaces/all" "GET" Json.null).1 (Or.inl rfl)
  · exact (((makeRequest_spec ⟨"http://o.example/api", Json.str "key"⟩ (fun _ _ _ => .reply 404 (.ok Json.null) "") "spaces/all" "GET" Json.null).2
      (by decide) (by decide)).2 _ _ _ rfl rfl rfl).2.2.2.1 (.ok Json.null) "" rfl

end Octopus
